import Mathlib

/-!
Verification of the desk/scanner pairing subsystem of the hostel
administration server.

The development shallowly embeds the relevant TypeScript sources:

* `src/backend/routes/accommodation.routes.ts` (inlined desk controller):
  the in-memory desk-session registry (`createDeskSession`,
  `validateDeskSession`, `refreshDeskSession`).  JavaScript `Map` objects
  are embedded as association lists with first-match lookup; timestamps
  (`Date.now()`, millisecond integers) are embedded as `Nat` and passed
  explicitly as a `now` argument.
* `src/backend/utils/socket.ts`: the pairing relay.  Each registered
  `socket.on` handler becomes one arm of a `step` function from relay
  state and an inbound client message to the successor state plus the
  list of emissions `(target socket id, server message)` it performs, in
  order.  An inbound event whose name has no registered handler is
  dropped by socket.io; it is embedded as the `ClientMsg.other` arm.
* `src/frontend/src/pages/Scanner.tsx`: the scanner client's socket
  listeners and its camera decode callback.
* `src/frontend/src/pages/ScannerContext.tsx` and
  `src/frontend/src/pages/cleanandscan.tsx`: the desk client's socket
  listeners and its clear action.
-/

/-! ## JavaScript `Map` embedding (association lists, first match wins) -/

/-- `Map.get`: first binding of the key, if any. -/
def mapFind {α : Type} (m : List (String × α)) (k : String) : Option α :=
  match m with
  | [] => none
  | (k1, v) :: rest => if k1 = k then some v else mapFind rest k

/-- `Map.set`: overwrite the first binding of the key, else append. -/
def mapSet {α : Type} (m : List (String × α)) (k : String) (v : α) :
    List (String × α) :=
  match m with
  | [] => [(k, v)]
  | (k1, v1) :: rest =>
      if k1 = k then (k, v) :: rest else (k1, v1) :: mapSet rest k v

/-- `Map.delete`: remove the first binding of the key. -/
def mapDel {α : Type} (m : List (String × α)) (k : String) :
    List (String × α) :=
  match m with
  | [] => []
  | (k1, v1) :: rest =>
      if k1 = k then rest else (k1, v1) :: mapDel rest k

/-! ## Session registry (desk controller) -/

/-- `DeskSession` record stored in the `deskSessions` map. -/
structure DeskSession where
  deskId : String
  signature : String
  createdAt : Nat
  expiresAt : Nat
  deriving DecidableEq, Repr

abbrev SessionMap := List (String × DeskSession)

/-- `SESSION_EXPIRY = 30 * 60 * 1000` milliseconds. -/
def SESSION_EXPIRY : Nat := 30 * 60 * 1000

/-- `validateDeskSession(deskId, signature)`: looks the session up, lazily
deletes it when found but past its expiry (`expiresAt < Date.now()`), and
otherwise compares the stored signature.  Returns the boolean result and
the (possibly mutated) session map. -/
def validateDeskSession (m : SessionMap) (deskId signature : String)
    (now : Nat) : Bool × SessionMap :=
  match mapFind m deskId with
  | none => (false, m)
  | some s =>
      if s.expiresAt < now then (false, mapDel m deskId)
      else (decide (s.signature = signature), m)

/-- `refreshDeskSession` route handler body: validates, answers HTTP 401
with no further change on failure, otherwise rewrites the session with
`expiresAt = Date.now() + SESSION_EXPIRY` and answers HTTP 200.  Returns
the status code and the resulting session map. -/
def refreshDeskSession (m : SessionMap) (deskId signature : String)
    (now : Nat) : Nat × SessionMap :=
  match validateDeskSession m deskId signature now with
  | (false, m1) => (401, m1)
  | (true, m1) =>
      match mapFind m1 deskId with
      | some s =>
          (200, mapSet m1 deskId { s with expiresAt := now + SESSION_EXPIRY })
      | none => (200, m1)

/-- `createDeskSession` effect on the registry: stores a fresh session with
`createdAt = now` and `expiresAt = now + SESSION_EXPIRY` under the freshly
generated id. -/
def createDeskSessionEffect (m : SessionMap) (deskId signature : String)
    (now : Nat) : SessionMap :=
  mapSet m deskId
    { deskId := deskId, signature := signature,
      createdAt := now, expiresAt := now + SESSION_EXPIRY }

/-! ## Pairing relay (socket.ts) -/

/-- Connection role tag, written into `socket.data.role` at join time. -/
inductive Role where
  | desk
  | scanner
  deriving DecidableEq, Repr

/-- `DeskRoom`: the two nullable connection slots of one pairing room. -/
structure DeskRoom where
  deskClient : Option Nat
  scannerClient : Option Nat
  deriving DecidableEq, Repr

/-- `socket.data` fields used by the relay (both initially unset). -/
structure SockData where
  deskId : Option String
  role : Option Role
  deriving DecidableEq, Repr

/-- Server-side shared state: the `deskRooms` map, each connection's
`socket.data`, and the desk-session registry consulted by the joins. -/
structure RelayState where
  rooms : List (String × DeskRoom)
  sdata : Nat → SockData
  sessions : SessionMap

/-- Messages a client can deliver to the relay.  `other n` stands for an
inbound event whose name `n` is none of the registered handler names
(socket.io drops such events without any effect). -/
inductive ClientMsg where
  | joinDesk (deskId signature : String)
  | joinScanner (deskId signature : String)
  | scanParticipant (uniqueId : String)
  | resumeScanning
  | disconnect
  | other (name : String)
  deriving DecidableEq, Repr

/-- Messages the relay emits towards clients. -/
inductive ServerMsg where
  | error (message : String)
  | deskJoined (deskId : String)
  | scannerJoined (deskId : String)
  | scannerConnected
  | scannerDisconnected
  | deskDisconnected
  | scanAcknowledged (uniqueId : String)
  | resumeScanning
  deriving DecidableEq, Repr

/-- One emission: target socket id and the message sent to it. -/
abbrev Emission := Nat × ServerMsg

/-- The event names for which `initializeSocket` registers a handler. -/
def serverHandledEvents : List String :=
  ["join-desk", "join-scanner", "scan-participant", "resume-scanning",
   "disconnect", "error"]

/-- Pointwise update of the `socket.data` assignment. -/
def setData (f : Nat → SockData) (c : Nat) (v : SockData) : Nat → SockData :=
  fun c1 => if c1 = c then v else f c1

/-- `deskRooms.get(socket.data.deskId)` (lookup of `undefined` misses). -/
def lookupRoom (s : RelayState) (cid : Nat) : Option DeskRoom :=
  match (s.sdata cid).deskId with
  | none => none
  | some i => mapFind s.rooms i

/-- The `join-desk` handler body: validate, get-or-create the room, bind
the desk slot to this connection, tag the connection, confirm with
`desk-joined`, and add `scanner-connected` when a scanner is already
bound. -/
def handleJoinDesk (now : Nat) (s : RelayState) (cid : Nat)
    (deskId signature : String) : RelayState × List Emission :=
  match validateDeskSession s.sessions deskId signature now with
  | (false, m1) =>
      ({ s with sessions := m1 },
       [(cid, .error "Invalid or expired desk session")])
  | (true, m1) =>
      match mapFind s.rooms deskId with
      | none =>
          ({ s with
              rooms := mapSet s.rooms deskId
                { deskClient := some cid, scannerClient := none },
              sdata := setData s.sdata cid
                { deskId := some deskId, role := some .desk },
              sessions := m1 },
           [(cid, .deskJoined deskId)])
      | some old =>
          ({ s with
              rooms := mapSet s.rooms deskId
                { old with deskClient := some cid },
              sdata := setData s.sdata cid
                { deskId := some deskId, role := some .desk },
              sessions := m1 },
           (cid, .deskJoined deskId) ::
             (if old.scannerClient.isSome then
                [(cid, .scannerConnected)] else []))

/-- The `join-scanner` handler body: validate, look the room up (a
scanner never creates one), bind the scanner slot, tag the connection,
confirm with `scanner-joined`, and notify a bound desk. -/
def handleJoinScanner (now : Nat) (s : RelayState) (cid : Nat)
    (deskId signature : String) : RelayState × List Emission :=
  match validateDeskSession s.sessions deskId signature now with
  | (false, m1) =>
      ({ s with sessions := m1 },
       [(cid, .error "Invalid or expired desk session")])
  | (true, m1) =>
      match mapFind s.rooms deskId with
      | none =>
          ({ s with sessions := m1 },
           [(cid, .error "Desk session not found")])
      | some old =>
          ({ s with
              rooms := mapSet s.rooms deskId
                { old with scannerClient := some cid },
              sdata := setData s.sdata cid
                { deskId := some deskId, role := some .scanner },
              sessions := m1 },
           (cid, .scannerJoined deskId) ::
             (match old.deskClient with
              | some dc => [(dc, .scannerConnected)]
              | none => []))

/-- The `scan-participant` handler body. -/
def handleScan (s : RelayState) (cid : Nat) (uniqueId : String) :
    RelayState × List Emission :=
  if (s.sdata cid).role ≠ some Role.scanner then
    (s, [(cid, .error "Only scanner can send scans")])
  else
    match lookupRoom s cid with
    | none => (s, [(cid, .error "Desk not connected")])
    | some room =>
        match room.deskClient with
        | none => (s, [(cid, .error "Desk not connected")])
        | some dc =>
            (s, [(dc, .scanAcknowledged uniqueId),
                 (cid, .scanAcknowledged uniqueId)])

/-- The `resume-scanning` handler body. -/
def handleResume (s : RelayState) (cid : Nat) :
    RelayState × List Emission :=
  if (s.sdata cid).role ≠ some Role.desk then
    (s, [(cid, .error "Only desk can resume scanning")])
  else
    match lookupRoom s cid with
    | none => (s, [(cid, .error "Scanner not connected")])
    | some room =>
        match room.scannerClient with
        | none => (s, [(cid, .error "Scanner not connected")])
        | some sc => (s, [(sc, .resumeScanning)])

/-- The `disconnect` handler body.  The guard `if (deskId)` also rejects
the empty string (falsy in JavaScript). -/
def handleDisconnect (s : RelayState) (cid : Nat) :
    RelayState × List Emission :=
  match (s.sdata cid).deskId with
  | none => (s, [])
  | some deskId =>
      if deskId = "" then (s, [])
      else
        match mapFind s.rooms deskId with
        | none => (s, [])
        | some room =>
            match (s.sdata cid).role with
            | some .desk =>
                let cleared := { room with deskClient := none }
                (match room.scannerClient with
                 | some sc =>
                     ({ s with rooms := mapSet s.rooms deskId cleared },
                      [(sc, .deskDisconnected)])
                 | none =>
                     ({ s with rooms := mapDel s.rooms deskId }, []))
            | some .scanner =>
                let cleared := { room with scannerClient := none }
                (match room.deskClient with
                 | some dc =>
                     ({ s with rooms := mapSet s.rooms deskId cleared },
                      [(dc, .scannerDisconnected)])
                 | none =>
                     ({ s with rooms := mapDel s.rooms deskId }, []))
            | none => (s, [])

/-- One relay event handled to completion: dispatch to the handler body
registered for the event, as in `initializeSocket`.  `now` is the value
of `Date.now()` during the handler run.  Returns the successor state and
the emissions in the order the handler performs them. -/
def step (now : Nat) (s : RelayState) (cid : Nat) (m : ClientMsg) :
    RelayState × List Emission :=
  match m with
  | .joinDesk deskId signature => handleJoinDesk now s cid deskId signature
  | .joinScanner deskId signature => handleJoinScanner now s cid deskId signature
  | .scanParticipant uniqueId => handleScan s cid uniqueId
  | .resumeScanning => handleResume s cid
  | .disconnect => handleDisconnect s cid
  | .other _ => (s, [])

/-! ## Reachability: traces of socket events and desk HTTP calls -/

/-- One external action against the server: a socket event handled by the
relay, or one of the two desk HTTP endpoints mutating the registry. -/
inductive Act where
  | sock (now : Nat) (cid : Nat) (m : ClientMsg)
  | httpCreate (now : Nat) (deskId signature : String)
  | httpRefresh (now : Nat) (deskId signature : String)

def applyAct (s : RelayState) : Act → RelayState
  | .sock now cid m => (step now s cid m).1
  | .httpCreate now deskId signature =>
      { s with sessions := createDeskSessionEffect s.sessions deskId signature now }
  | .httpRefresh now deskId signature =>
      { s with sessions := (refreshDeskSession s.sessions deskId signature now).2 }

def runTrace (s : RelayState) (tr : List Act) : RelayState :=
  tr.foldl applyAct s

/-- Server start: no rooms, no socket data, no sessions. -/
def initState : RelayState :=
  { rooms := [], sdata := fun _ => { deskId := none, role := none },
    sessions := [] }

/-- A relay state is reachable when some finite trace of external actions
produces it from server start. -/
def Reachable (s : RelayState) : Prop :=
  ∃ tr : List Act, s = runTrace initState tr

/-! ## Scanner client (Scanner.tsx) -/

/-- The socket event names `Scanner.tsx` registers a listener for. -/
def scannerListeners : List String :=
  ["scanner-joined", "desk-disconnected", "scan-acknowledged",
   "resume-scanning", "error"]

/-- Scanner page state relevant to the protocol: `connected`, `scanning`
(whether the camera decode loop is running), `paused`, `lastScanned`. -/
structure ScannerUI where
  connected : Bool
  scanning : Bool
  paused : Bool
  lastScanned : Option String
  deriving DecidableEq, Repr

/-- Effect of each registered listener in `Scanner.tsx` on the page
state: `scanner-joined` sets connected and (re)starts the decode loop;
`scan-acknowledged` records the id, pauses, and stops the camera;
`resume-scanning` unpauses and restarts the camera; `desk-disconnected`
and `error` only toast.  A message without a listener changes nothing. -/
def scannerHandle (ui : ScannerUI) : ServerMsg → ScannerUI
  | .scannerJoined _ => { ui with connected := true, scanning := true }
  | .scanAcknowledged uid =>
      { ui with lastScanned := some uid, paused := true, scanning := false }
  | .resumeScanning => { ui with paused := false, scanning := true }
  | _ => ui

/-- Outcome of `JSON.parse` on a decoded badge text, reduced to the two
fields the callback inspects: `fail` when `JSON.parse` throws, otherwise
the parsed value's `type` and `uniqueId` fields, modeled as strings
(`none` for an absent field; the empty string models a falsy value). -/
inductive ParseOutcome where
  | fail
  | ok (type : Option String) (uniqueId : Option String)
  deriving DecidableEq, Repr

/-- The decode callback of `startScanner` in `Scanner.tsx`: ignore the
frame when paused; on a JSON value with `type === 'PARTICIPANT'` and a
truthy `uniqueId` emit `scan-participant` with that id (when the socket
is up and connected); on any other JSON value emit nothing (invalid
format toast); when `JSON.parse` throws, emit the raw decoded text
verbatim.  Returns the `uniqueId` transmitted, if any. -/
def decodeCallback (paused connected : Bool) (decodedText : String)
    (parsed : ParseOutcome) : Option String :=
  if paused then none
  else
    match parsed with
    | .ok ty uid =>
        if ty = some "PARTICIPANT" then
          match uid with
          | some u => if u = "" then none else if connected then some u else none
          | none => none
        else none
    | .fail => if connected then some decodedText else none

/-! ## Desk client (ScannerContext.tsx, cleanandscan.tsx) -/

/-- The socket event names `ScannerContext.tsx` registers a listener for. -/
def deskListeners : List String :=
  ["desk-joined", "scanner-connected", "scanner-disconnected",
   "scan-acknowledged", "error"]

/-- Desk page state relevant to the protocol. -/
structure DeskUI where
  uniqueIdValue : String
  scannerConnected : Bool
  deriving DecidableEq, Repr

/-- Remove the first occurrence of `pat` from `s`, scanning left to
right: the semantics of JavaScript `s.replace(pat, '')` for a plain
string pattern. -/
def removeFirstOcc (pat : List Char) : List Char → List Char
  | [] => []
  | c :: rest =>
      if pat.isPrefixOf (c :: rest) then (c :: rest).drop pat.length
      else c :: removeFirstOcc pat rest

/-- Whether `pat` occurs as a contiguous run inside `s`. -/
def hasOcc (pat : List Char) : List Char → Bool
  | [] => pat.isEmpty
  | c :: rest => pat.isPrefixOf (c :: rest) || hasOcc pat rest

/-- `uniqueId.replace('INF', '')` from the desk's `scan-acknowledged`
listener. -/
def stripInfTag (s : String) : String :=
  String.mk (removeFirstOcc "INF".data s.data)

/-- Effect of each registered listener in `connectSocket`
(`ScannerContext.tsx`) on the desk page state: `scan-acknowledged` writes
`uniqueId.replace('INF','')` into the outward-facing field;
`scanner-connected` / `scanner-disconnected` flip the flag; `desk-joined`
and `error` only toast. -/
def deskHandle (ui : DeskUI) : ServerMsg → DeskUI
  | .scanAcknowledged uid => { ui with uniqueIdValue := stripInfTag uid }
  | .scannerConnected => { ui with scannerConnected := true }
  | .scannerDisconnected => { ui with scannerConnected := false }
  | _ => ui

/-- `clearScan` from `cleanandscan.tsx`: reset the outward-facing field
and, when a socket exists and scanner mode is on, emit `resume-scanning`.
Returns the new state and the names of the events emitted. -/
def clearScan (ui : DeskUI) (hasSocket scannerMode : Bool) :
    DeskUI × List String :=
  ({ ui with uniqueIdValue := "" },
   if hasSocket && scannerMode then ["resume-scanning"] else [])

/-- The desk currently bound in the sender's room, if any. -/
def boundDesk (s : RelayState) (cid : Nat) : Option Nat :=
  match lookupRoom s cid with
  | none => none
  | some room => room.deskClient

/-- The scanner currently bound in the sender's room, if any. -/
def boundScanner (s : RelayState) (cid : Nat) : Option Nat :=
  match lookupRoom s cid with
  | none => none
  | some room => room.scannerClient

/-- A concrete action trace: a session is created, a desk joins, then a
scanner joins, producing a fully paired room. -/
def exTrace : List Act :=
  [Act.httpCreate 0 "d" "sig",
   Act.sock 1 0 (ClientMsg.joinDesk "d" "sig"),
   Act.sock 2 1 (ClientMsg.joinScanner "d" "sig")]

/-- The paired relay state reached by `exTrace`: room `"d"` has desk
connection 0 and scanner connection 1. -/
def exState : RelayState := runTrace initState exTrace

/-- A relay state holding a single already-expired session and no rooms. -/
def expiredSessState : RelayState :=
  { rooms := [], sdata := fun _ => { deskId := none, role := none },
    sessions := [("d", { deskId := "d", signature := "sig",
                         createdAt := 0, expiresAt := 50 })] }

/-! ## Basic lemmas about the map embedding and validation -/

theorem mapFind_mapSet_self {α : Type} (m : List (String × α)) (k : String)
    (v : α) : mapFind (mapSet m k v) k = some v := by
  induction m with
  | nil => simp [mapSet, mapFind]
  | cons hd tl ih =>
      obtain ⟨k1, v1⟩ := hd
      by_cases hk : k1 = k
      · simp [mapSet, hk, mapFind]
      · simp [mapSet, hk, mapFind, ih]

theorem mapFind_mapSet_ne {α : Type} (m : List (String × α)) (k k2 : String)
    (v : α) (h : k2 ≠ k) : mapFind (mapSet m k v) k2 = mapFind m k2 := by
  induction m with
  | nil => simp [mapSet, mapFind, Ne.symm h]
  | cons hd tl ih =>
      obtain ⟨k1, v1⟩ := hd
      by_cases hk : k1 = k
      · subst hk
        simp [mapSet, mapFind, Ne.symm h]
      · simp only [mapSet, hk, if_false, mapFind, ih]

theorem mapFind_eq_none_of_not_mem {α : Type} {m : List (String × α)}
    {k : String} (h : k ∉ m.map Prod.fst) : mapFind m k = none := by
  induction m with
  | nil => rfl
  | cons hd tl ih =>
      obtain ⟨k1, v1⟩ := hd
      simp only [List.map_cons, List.mem_cons, not_or] at h
      simp only [mapFind, if_neg (Ne.symm h.1)]
      exact ih h.2

theorem mapFind_mapDel_self {α : Type} {m : List (String × α)} {k : String}
    (hnd : (m.map Prod.fst).Nodup) : mapFind (mapDel m k) k = none := by
  induction m with
  | nil => rfl
  | cons hd tl ih =>
      obtain ⟨k1, v1⟩ := hd
      simp only [List.map_cons, List.nodup_cons] at hnd
      by_cases hk : k1 = k
      · subst hk
        simp only [mapDel, if_pos rfl]
        exact mapFind_eq_none_of_not_mem hnd.1
      · simp only [mapDel, if_neg hk, mapFind, if_neg hk]
        exact ih hnd.2

theorem validate_true_sessions {m : SessionMap} {deskId signature : String}
    {now : Nat} (h : (validateDeskSession m deskId signature now).1 = true) :
    (validateDeskSession m deskId signature now).2 = m := by
  unfold validateDeskSession at h ⊢
  cases hf : mapFind m deskId with
  | none => simp [hf]
  | some s =>
      simp only [hf] at h ⊢
      by_cases he : s.expiresAt < now
      · simp [he] at h
      · simp [he]

/-! ## Helper lemmas about session validation -/

theorem validate_true_iff (m : SessionMap) (deskId signature : String)
    (now : Nat) :
    (validateDeskSession m deskId signature now).1 = true ↔
      ∃ s, mapFind m deskId = some s ∧ now ≤ s.expiresAt ∧
        s.signature = signature := by
  unfold validateDeskSession
  cases hf : mapFind m deskId with
  | none => simp
  | some s =>
      by_cases he : s.expiresAt < now
      · simp only [he, if_true]
        constructor
        · intro h; exact absurd h (by simp)
        · rintro ⟨s1, hs1, hle, _⟩
          obtain h12 := Option.some.inj hs1
          subst h12
          omega
      · simp only [he, if_false]
        constructor
        · intro h
          exact ⟨s, rfl, by omega, of_decide_eq_true h⟩
        · rintro ⟨s1, hs1, _, hsig⟩
          obtain h12 := Option.some.inj hs1
          subst h12
          exact decide_eq_true hsig

theorem validate_evict {m : SessionMap} {deskId signature : String}
    {now : Nat} {s : DeskSession} (hf : mapFind m deskId = some s)
    (he : s.expiresAt < now) :
    (validateDeskSession m deskId signature now).2 = mapDel m deskId := by
  unfold validateDeskSession
  rw [hf]
  simp [he]

theorem validate_keep {m : SessionMap} {deskId signature : String}
    {now : Nat} (h : ∀ s, mapFind m deskId = some s → now ≤ s.expiresAt) :
    (validateDeskSession m deskId signature now).2 = m := by
  unfold validateDeskSession
  cases hf : mapFind m deskId with
  | none => rfl
  | some s =>
      have := h s hf
      simp [show ¬ s.expiresAt < now by omega]

/-! ## C1: the `validate` operation of the session registry -/

/-- C1 counterexample: at the instant `now = expiresAt` the session is
not "strictly" live (`expiresAt > now` fails), yet `validateDeskSession`
returns `true` (its expiry test is `expiresAt < Date.now()`), so the
claimed iff is false at this input.  The registry is left unchanged. -/
theorem validate_strict_expiry_cex :
    (validateDeskSession
        [("d", { deskId := "d", signature := "sig", createdAt := 0,
                 expiresAt := 100 })] "d" "sig" 100).1 = true ∧
    ¬ (100 : Nat) < (DeskSession.mk "d" "sig" 0 100).expiresAt ∧
    (validateDeskSession
        [("d", { deskId := "d", signature := "sig", createdAt := 0,
                 expiresAt := 100 })] "d" "sig" 100).2 =
      [("d", { deskId := "d", signature := "sig", createdAt := 0,
               expiresAt := 100 })] := by
  decide

/-- C1 (amended): `validateDeskSession(id, sig)` returns true iff a
session with that id is present, `now ≤ expiresAt` (not strictly past
expiry; at `now = expiresAt` it still validates), and the stored
signature equals the supplied one; it removes the session exactly when it
is found with `expiresAt < now`, and leaves the registry unchanged in
every other case. -/
theorem validate_characterization (m : SessionMap)
    (deskId signature : String) (now : Nat) :
    ((validateDeskSession m deskId signature now).1 = true ↔
      ∃ s, mapFind m deskId = some s ∧ now ≤ s.expiresAt ∧
        s.signature = signature) ∧
    (∀ s, mapFind m deskId = some s → s.expiresAt < now →
      (validateDeskSession m deskId signature now).2 = mapDel m deskId) ∧
    ((∀ s, mapFind m deskId = some s → now ≤ s.expiresAt) →
      (validateDeskSession m deskId signature now).2 = m) := by
  refine ⟨validate_true_iff m deskId signature now, ?_, ?_⟩
  · intro s hf he
    exact validate_evict hf he
  · intro h
    exact validate_keep h

/-- Witness for C1: on a live session the characterization yields
validity and an unchanged registry. -/
theorem validate_characterization_witness :
    (validateDeskSession
        [("d", { deskId := "d", signature := "sig", createdAt := 0,
                 expiresAt := 100 })] "d" "sig" 50).1 = true ∧
    (validateDeskSession
        [("d", { deskId := "d", signature := "sig", createdAt := 0,
                 expiresAt := 100 })] "d" "sig" 50).2 =
      [("d", { deskId := "d", signature := "sig", createdAt := 0,
               expiresAt := 100 })] := by
  have h := validate_characterization
    [("d", { deskId := "d", signature := "sig", createdAt := 0,
             expiresAt := 100 })] "d" "sig" 50
  refine ⟨h.1.mpr ⟨{ deskId := "d", signature := "sig", createdAt := 0,
                     expiresAt := 100 }, by decide, by decide, rfl⟩,
          h.2.2 ?_⟩
  intro s hs
  have hval : mapFind
      ([("d", { deskId := "d", signature := "sig", createdAt := 0,
                expiresAt := 100 })] : SessionMap) "d" =
      some { deskId := "d", signature := "sig", createdAt := 0,
             expiresAt := 100 } := by decide
  have hs1 : s = { deskId := "d", signature := "sig", createdAt := 0,
                   expiresAt := 100 } :=
    Option.some.inj (hs.symm.trans hval)
  rw [hs1]
  decide

theorem refresh_eq_of_validate_false {m : SessionMap}
    {deskId signature : String} {now : Nat}
    (hv : (validateDeskSession m deskId signature now).1 = false) :
    refreshDeskSession m deskId signature now =
      (401, (validateDeskSession m deskId signature now).2) := by
  unfold refreshDeskSession
  cases hval : validateDeskSession m deskId signature now with
  | mk b m1 =>
      rw [hval] at hv
      simp only at hv
      subst hv
      rfl

theorem refresh_eq_of_validate_true {m : SessionMap}
    {deskId signature : String} {now : Nat} {s : DeskSession}
    (hv : (validateDeskSession m deskId signature now).1 = true)
    (hf : mapFind m deskId = some s) :
    refreshDeskSession m deskId signature now =
      (200, mapSet m deskId { s with expiresAt := now + SESSION_EXPIRY }) := by
  have hkeep := validate_true_sessions hv
  unfold refreshDeskSession
  cases hval : validateDeskSession m deskId signature now with
  | mk b m1 =>
      rw [hval] at hv hkeep
      simp only at hv hkeep
      subst hv
      subst hkeep
      simp only [hf]

/-! ## Step characterization lemmas for the relay -/

theorem validate_eq_true_pair {m : SessionMap} {deskId signature : String}
    {now : Nat}
    (hv : (validateDeskSession m deskId signature now).1 = true) :
    validateDeskSession m deskId signature now = (true, m) := by
  have h2 := validate_true_sessions hv
  have heta : validateDeskSession m deskId signature now =
      ((validateDeskSession m deskId signature now).1,
       (validateDeskSession m deskId signature now).2) := rfl
  rw [heta, hv, h2]

theorem step_joinDesk_invalid {s : RelayState} {now cid : Nat}
    {deskId signature : String}
    (hv : (validateDeskSession s.sessions deskId signature now).1 = false) :
    step now s cid (ClientMsg.joinDesk deskId signature) =
      ({ s with sessions :=
          (validateDeskSession s.sessions deskId signature now).2 },
       [(cid, ServerMsg.error "Invalid or expired desk session")]) := by
  show handleJoinDesk now s cid deskId signature = _
  unfold handleJoinDesk
  cases hval : validateDeskSession s.sessions deskId signature now with
  | mk b m1 =>
      rw [hval] at hv
      simp only at hv
      subst hv
      rfl

theorem step_joinDesk_valid_new {s : RelayState} {now cid : Nat}
    {deskId signature : String}
    (hv : (validateDeskSession s.sessions deskId signature now).1 = true)
    (hr : mapFind s.rooms deskId = none) :
    step now s cid (ClientMsg.joinDesk deskId signature) =
      ({ s with
          rooms := mapSet s.rooms deskId
            { deskClient := some cid, scannerClient := none },
          sdata := setData s.sdata cid
            { deskId := some deskId, role := some Role.desk } },
       [(cid, ServerMsg.deskJoined deskId)]) := by
  show handleJoinDesk now s cid deskId signature = _
  unfold handleJoinDesk
  rw [validate_eq_true_pair hv]
  simp only [hr]

theorem step_joinDesk_valid_old {s : RelayState} {now cid : Nat}
    {deskId signature : String} {old : DeskRoom}
    (hv : (validateDeskSession s.sessions deskId signature now).1 = true)
    (hr : mapFind s.rooms deskId = some old) :
    step now s cid (ClientMsg.joinDesk deskId signature) =
      ({ s with
          rooms := mapSet s.rooms deskId { old with deskClient := some cid },
          sdata := setData s.sdata cid
            { deskId := some deskId, role := some Role.desk } },
       (cid, ServerMsg.deskJoined deskId) ::
         (if old.scannerClient.isSome then
            [(cid, ServerMsg.scannerConnected)] else [])) := by
  show handleJoinDesk now s cid deskId signature = _
  unfold handleJoinDesk
  rw [validate_eq_true_pair hv]
  simp only [hr]

theorem step_joinScanner_invalid {s : RelayState} {now cid : Nat}
    {deskId signature : String}
    (hv : (validateDeskSession s.sessions deskId signature now).1 = false) :
    step now s cid (ClientMsg.joinScanner deskId signature) =
      ({ s with sessions :=
          (validateDeskSession s.sessions deskId signature now).2 },
       [(cid, ServerMsg.error "Invalid or expired desk session")]) := by
  show handleJoinScanner now s cid deskId signature = _
  unfold handleJoinScanner
  cases hval : validateDeskSession s.sessions deskId signature now with
  | mk b m1 =>
      rw [hval] at hv
      simp only at hv
      subst hv
      rfl

theorem step_joinScanner_valid_none {s : RelayState} {now cid : Nat}
    {deskId signature : String}
    (hv : (validateDeskSession s.sessions deskId signature now).1 = true)
    (hr : mapFind s.rooms deskId = none) :
    step now s cid (ClientMsg.joinScanner deskId signature) =
      (s, [(cid, ServerMsg.error "Desk session not found")]) := by
  show handleJoinScanner now s cid deskId signature = _
  unfold handleJoinScanner
  rw [validate_eq_true_pair hv]
  simp only [hr]

theorem step_joinScanner_valid_some {s : RelayState} {now cid : Nat}
    {deskId signature : String} {old : DeskRoom}
    (hv : (validateDeskSession s.sessions deskId signature now).1 = true)
    (hr : mapFind s.rooms deskId = some old) :
    step now s cid (ClientMsg.joinScanner deskId signature) =
      ({ s with
          rooms := mapSet s.rooms deskId { old with scannerClient := some cid },
          sdata := setData s.sdata cid
            { deskId := some deskId, role := some Role.scanner } },
       (cid, ServerMsg.scannerJoined deskId) ::
         (match old.deskClient with
          | some dc => [(dc, ServerMsg.scannerConnected)]
          | none => [])) := by
  show handleJoinScanner now s cid deskId signature = _
  unfold handleJoinScanner
  rw [validate_eq_true_pair hv]
  simp only [hr]

theorem step_scan_wrong_role {s : RelayState} {now cid : Nat}
    {uniqueId : String}
    (h : (s.sdata cid).role ≠ some Role.scanner) :
    step now s cid (ClientMsg.scanParticipant uniqueId) =
      (s, [(cid, ServerMsg.error "Only scanner can send scans")]) := by
  show handleScan s cid uniqueId = _
  unfold handleScan
  rw [if_pos h]

theorem step_scan_no_room {s : RelayState} {now cid : Nat}
    {uniqueId : String}
    (hrole : (s.sdata cid).role = some Role.scanner)
    (hr : lookupRoom s cid = none) :
    step now s cid (ClientMsg.scanParticipant uniqueId) =
      (s, [(cid, ServerMsg.error "Desk not connected")]) := by
  show handleScan s cid uniqueId = _
  unfold handleScan
  rw [if_neg (not_not_intro hrole)]
  simp only [hr]

theorem step_scan_no_desk {s : RelayState} {now cid : Nat}
    {uniqueId : String} {room : DeskRoom}
    (hrole : (s.sdata cid).role = some Role.scanner)
    (hr : lookupRoom s cid = some room)
    (hd : room.deskClient = none) :
    step now s cid (ClientMsg.scanParticipant uniqueId) =
      (s, [(cid, ServerMsg.error "Desk not connected")]) := by
  show handleScan s cid uniqueId = _
  unfold handleScan
  rw [if_neg (not_not_intro hrole)]
  simp only [hr, hd]

theorem step_scan_forward {s : RelayState} {now cid : Nat}
    {uniqueId : String} {room : DeskRoom} {dc : Nat}
    (hrole : (s.sdata cid).role = some Role.scanner)
    (hr : lookupRoom s cid = some room)
    (hd : room.deskClient = some dc) :
    step now s cid (ClientMsg.scanParticipant uniqueId) =
      (s, [(dc, ServerMsg.scanAcknowledged uniqueId),
           (cid, ServerMsg.scanAcknowledged uniqueId)]) := by
  show handleScan s cid uniqueId = _
  unfold handleScan
  rw [if_neg (not_not_intro hrole)]
  simp only [hr, hd]

theorem step_resume_wrong_role {s : RelayState} {now cid : Nat}
    (h : (s.sdata cid).role ≠ some Role.desk) :
    step now s cid ClientMsg.resumeScanning =
      (s, [(cid, ServerMsg.error "Only desk can resume scanning")]) := by
  show handleResume s cid = _
  unfold handleResume
  rw [if_pos h]

theorem step_resume_no_room {s : RelayState} {now cid : Nat}
    (hrole : (s.sdata cid).role = some Role.desk)
    (hr : lookupRoom s cid = none) :
    step now s cid ClientMsg.resumeScanning =
      (s, [(cid, ServerMsg.error "Scanner not connected")]) := by
  show handleResume s cid = _
  unfold handleResume
  rw [if_neg (not_not_intro hrole)]
  simp only [hr]

theorem step_resume_no_scanner {s : RelayState} {now cid : Nat}
    {room : DeskRoom}
    (hrole : (s.sdata cid).role = some Role.desk)
    (hr : lookupRoom s cid = some room)
    (hsc : room.scannerClient = none) :
    step now s cid ClientMsg.resumeScanning =
      (s, [(cid, ServerMsg.error "Scanner not connected")]) := by
  show handleResume s cid = _
  unfold handleResume
  rw [if_neg (not_not_intro hrole)]
  simp only [hr, hsc]

theorem step_resume_forward {s : RelayState} {now cid : Nat}
    {room : DeskRoom} {sc : Nat}
    (hrole : (s.sdata cid).role = some Role.desk)
    (hr : lookupRoom s cid = some room)
    (hsc : room.scannerClient = some sc) :
    step now s cid ClientMsg.resumeScanning =
      (s, [(sc, ServerMsg.resumeScanning)]) := by
  show handleResume s cid = _
  unfold handleResume
  rw [if_neg (not_not_intro hrole)]
  simp only [hr, hsc]

theorem step_disc_desk_paired {s : RelayState} {now cid : Nat}
    {deskId : String} {room : DeskRoom} {sc : Nat}
    (hid : (s.sdata cid).deskId = some deskId) (hne : deskId ≠ "")
    (hrole : (s.sdata cid).role = some Role.desk)
    (hr : mapFind s.rooms deskId = some room)
    (hsc : room.scannerClient = some sc) :
    step now s cid ClientMsg.disconnect =
      ({ s with
          rooms := mapSet s.rooms deskId { room with deskClient := none } },
       [(sc, ServerMsg.deskDisconnected)]) := by
  show handleDisconnect s cid = _
  unfold handleDisconnect
  simp only [hid, hne, if_false, hr, hrole, hsc]

theorem step_disc_desk_alone {s : RelayState} {now cid : Nat}
    {deskId : String} {room : DeskRoom}
    (hid : (s.sdata cid).deskId = some deskId) (hne : deskId ≠ "")
    (hrole : (s.sdata cid).role = some Role.desk)
    (hr : mapFind s.rooms deskId = some room)
    (hsc : room.scannerClient = none) :
    step now s cid ClientMsg.disconnect =
      ({ s with rooms := mapDel s.rooms deskId }, []) := by
  show handleDisconnect s cid = _
  unfold handleDisconnect
  simp only [hid, hne, if_false, hr, hrole, hsc]

theorem step_disc_scanner_paired {s : RelayState} {now cid : Nat}
    {deskId : String} {room : DeskRoom} {dc : Nat}
    (hid : (s.sdata cid).deskId = some deskId) (hne : deskId ≠ "")
    (hrole : (s.sdata cid).role = some Role.scanner)
    (hr : mapFind s.rooms deskId = some room)
    (hd : room.deskClient = some dc) :
    step now s cid ClientMsg.disconnect =
      ({ s with
          rooms := mapSet s.rooms deskId { room with scannerClient := none } },
       [(dc, ServerMsg.scannerDisconnected)]) := by
  show handleDisconnect s cid = _
  unfold handleDisconnect
  simp only [hid, hne, if_false, hr, hrole, hd]

theorem step_disc_scanner_alone {s : RelayState} {now cid : Nat}
    {deskId : String} {room : DeskRoom}
    (hid : (s.sdata cid).deskId = some deskId) (hne : deskId ≠ "")
    (hrole : (s.sdata cid).role = some Role.scanner)
    (hr : mapFind s.rooms deskId = some room)
    (hd : room.deskClient = none) :
    step now s cid ClientMsg.disconnect =
      ({ s with rooms := mapDel s.rooms deskId }, []) := by
  show handleDisconnect s cid = _
  unfold handleDisconnect
  simp only [hid, hne, if_false, hr, hrole, hd]

/-! ## C2: the `refresh` operation of the session registry -/

/-- C2 counterexample.  First input: a refresh in the same millisecond
the session was created succeeds (HTTP 200) yet leaves the registry, and
in particular `expiresAt`, literally unchanged — `expiresAt` is not
strictly increased.  Second input: a refresh of an expired session
answers 401 but mutates the registry (validation lazily evicts the
session), so it is not a no-op. -/
theorem refresh_cex :
    ((refreshDeskSession
        [("d", { deskId := "d", signature := "s", createdAt := 0,
                 expiresAt := SESSION_EXPIRY })] "d" "s" 0).1 = 200 ∧
     (refreshDeskSession
        [("d", { deskId := "d", signature := "s", createdAt := 0,
                 expiresAt := SESSION_EXPIRY })] "d" "s" 0).2 =
       [("d", { deskId := "d", signature := "s", createdAt := 0,
                expiresAt := SESSION_EXPIRY })]) ∧
    ((refreshDeskSession
        [("d", { deskId := "d", signature := "s", createdAt := 0,
                 expiresAt := 50 })] "d" "s" 100).1 = 401 ∧
     (refreshDeskSession
        [("d", { deskId := "d", signature := "s", createdAt := 0,
                 expiresAt := 50 })] "d" "s" 100).2 = [] ∧
     ([("d", { deskId := "d", signature := "s", createdAt := 0,
               expiresAt := 50 })] : SessionMap) ≠ []) := by
  decide

/-- C2 (amended): on a valid pair `refreshDeskSession` answers 200 and
rewrites the session's `expiresAt` to exactly `now + SESSION_EXPIRY`
(a strict increase precisely when the stored value was below that, which
fails e.g. for a refresh within the creation millisecond); on an invalid
or expired pair it answers 401 and performs no mutation beyond the lazy
eviction, by the validation call, of a session found with
`expiresAt < now`. -/
theorem refresh_characterization (m : SessionMap)
    (deskId signature : String) (now : Nat) :
    ((validateDeskSession m deskId signature now).1 = true →
      (refreshDeskSession m deskId signature now).1 = 200 ∧
      ∃ s, mapFind m deskId = some s ∧
        (refreshDeskSession m deskId signature now).2 =
          mapSet m deskId { s with expiresAt := now + SESSION_EXPIRY }) ∧
    ((validateDeskSession m deskId signature now).1 = false →
      (refreshDeskSession m deskId signature now).1 = 401 ∧
      ((refreshDeskSession m deskId signature now).2 = m ∨
       ∃ s, mapFind m deskId = some s ∧ s.expiresAt < now ∧
         (refreshDeskSession m deskId signature now).2 = mapDel m deskId)) := by
  constructor
  · intro hv
    obtain ⟨s, hf, _, _⟩ := (validate_true_iff m deskId signature now).mp hv
    rw [refresh_eq_of_validate_true hv hf]
    exact ⟨rfl, s, hf, rfl⟩
  · intro hv
    rw [refresh_eq_of_validate_false hv]
    refine ⟨rfl, ?_⟩
    unfold validateDeskSession
    cases hfm : mapFind m deskId with
    | none => exact Or.inl rfl
    | some s =>
        by_cases he : s.expiresAt < now
        · exact Or.inr ⟨s, rfl, he, by simp [he]⟩
        · exact Or.inl (by simp [he])

/-- Witness for C2: refreshing a live session one millisecond after
creation answers 200 and sets `expiresAt` to `1 + SESSION_EXPIRY`. -/
theorem refresh_characterization_witness :
    (refreshDeskSession
        [("d", { deskId := "d", signature := "s", createdAt := 0,
                 expiresAt := SESSION_EXPIRY })] "d" "s" 1).1 = 200 ∧
    (refreshDeskSession
        [("d", { deskId := "d", signature := "s", createdAt := 0,
                 expiresAt := SESSION_EXPIRY })] "d" "s" 1).2 =
      [("d", { deskId := "d", signature := "s", createdAt := 0,
               expiresAt := 1 + SESSION_EXPIRY })] := by
  have h := (refresh_characterization
    [("d", { deskId := "d", signature := "s", createdAt := 0,
             expiresAt := SESSION_EXPIRY })] "d" "s" 1).1 (by decide)
  obtain ⟨h200, s, hf, hmap⟩ := h
  have hval : mapFind
      ([("d", { deskId := "d", signature := "s", createdAt := 0,
                expiresAt := SESSION_EXPIRY })] : SessionMap) "d" =
      some { deskId := "d", signature := "s", createdAt := 0,
             expiresAt := SESSION_EXPIRY } := by decide
  have hs : s = { deskId := "d", signature := "s", createdAt := 0,
                  expiresAt := SESSION_EXPIRY } :=
    Option.some.inj (hf.symm.trans hval)
  subst hs
  exact ⟨h200, by rw [hmap]; decide⟩

/-! ## Master equations for the scan and resume handlers -/

theorem step_scan_eq (s : RelayState) (now cid : Nat) (uniqueId : String) :
    step now s cid (ClientMsg.scanParticipant uniqueId) =
      if (s.sdata cid).role = some Role.scanner then
        match boundDesk s cid with
        | some dc =>
            (s, [(dc, ServerMsg.scanAcknowledged uniqueId),
                 (cid, ServerMsg.scanAcknowledged uniqueId)])
        | none => (s, [(cid, ServerMsg.error "Desk not connected")])
      else (s, [(cid, ServerMsg.error "Only scanner can send scans")]) := by
  by_cases hrole : (s.sdata cid).role = some Role.scanner
  · rw [if_pos hrole]
    cases hlr : lookupRoom s cid with
    | none =>
        rw [step_scan_no_room hrole hlr]
        simp [boundDesk, hlr]
    | some room =>
        cases hd : room.deskClient with
        | none =>
            rw [step_scan_no_desk hrole hlr hd]
            simp [boundDesk, hlr, hd]
        | some dc =>
            rw [step_scan_forward hrole hlr hd]
            simp [boundDesk, hlr, hd]
  · rw [if_neg hrole, step_scan_wrong_role hrole]

theorem step_resume_eq (s : RelayState) (now cid : Nat) :
    step now s cid ClientMsg.resumeScanning =
      if (s.sdata cid).role = some Role.desk then
        match boundScanner s cid with
        | some sc => (s, [(sc, ServerMsg.resumeScanning)])
        | none => (s, [(cid, ServerMsg.error "Scanner not connected")])
      else (s, [(cid, ServerMsg.error "Only desk can resume scanning")]) := by
  by_cases hrole : (s.sdata cid).role = some Role.desk
  · rw [if_pos hrole]
    cases hlr : lookupRoom s cid with
    | none =>
        rw [step_resume_no_room hrole hlr]
        simp [boundScanner, hlr]
    | some room =>
        cases hsc : room.scannerClient with
        | none =>
            rw [step_resume_no_scanner hrole hlr hsc]
            simp [boundScanner, hlr, hsc]
        | some sc =>
            rw [step_resume_forward hrole hlr hsc]
            simp [boundScanner, hlr, hsc]
  · rw [if_neg hrole, step_resume_wrong_role hrole]

/-! ## C3: room slot invariant and last-joiner-wins -/

/-- C3: in every reachable relay state each pairing room stores at most
one desk connection and at most one scanner connection (each slot is a
single optional reference), and a successful join for a role overwrites
exactly that role's slot with the joining connection while preserving the
other slot — the previous holder is fully superseded, never kept
alongside the new one. -/
theorem room_single_slot_supersede (s : RelayState) (h : Reachable s) :
    (∀ id room, mapFind s.rooms id = some room →
      room.deskClient.toList.length ≤ 1 ∧
      room.scannerClient.toList.length ≤ 1) ∧
    (∀ now cid deskId signature old,
      (validateDeskSession s.sessions deskId signature now).1 = true →
      mapFind s.rooms deskId = some old →
      mapFind (step now s cid (ClientMsg.joinDesk deskId signature)).1.rooms
          deskId =
        some { deskClient := some cid, scannerClient := old.scannerClient } ∧
      mapFind (step now s cid
          (ClientMsg.joinScanner deskId signature)).1.rooms deskId =
        some { deskClient := old.deskClient, scannerClient := some cid }) := by
  refine ⟨?_, ?_⟩
  · intro id room _
    constructor
    · cases room.deskClient <;> simp
    · cases room.scannerClient <;> simp
  · intro now cid deskId signature old hv hr
    constructor
    · rw [step_joinDesk_valid_old hv hr]
      exact mapFind_mapSet_self s.rooms deskId _
    · rw [step_joinScanner_valid_some hv hr]
      exact mapFind_mapSet_self s.rooms deskId _

/-- Witness for C3: in the concrete paired reachable state, a second desk
join by connection 5 replaces desk 0 and keeps scanner 1; a second
scanner join by connection 5 replaces scanner 1 and keeps desk 0. -/
theorem room_single_slot_supersede_witness :
    mapFind (step 3 exState 5 (ClientMsg.joinDesk "d" "sig")).1.rooms "d" =
      some { deskClient := some 5, scannerClient := some 1 } ∧
    mapFind (step 3 exState 5 (ClientMsg.joinScanner "d" "sig")).1.rooms "d" =
      some { deskClient := some 0, scannerClient := some 5 } := by
  have h := (room_single_slot_supersede exState ⟨exTrace, rfl⟩).2 3 5 "d" "sig"
    { deskClient := some 0, scannerClient := some 1 } (by decide) (by decide)
  exact h

/-! ## C4: scan-participant relay behavior -/

/-- C4: `scan-participant` never changes relay state; it produces
`scan-acknowledged` emissions iff the sender is tagged role=scanner and
the sender's room has a bound desk, and in that case the emissions are
exactly `scan-acknowledged(uniqueId)` to the bound desk followed by the
same to the sending scanner; with the wrong role, or with no room or no
bound desk, the sender receives a single `error` and nothing else. -/
theorem scan_participant_relay (s : RelayState) (now cid : Nat)
    (uniqueId : String) :
    (step now s cid (ClientMsg.scanParticipant uniqueId)).1 = s ∧
    (∀ dc, (s.sdata cid).role = some Role.scanner →
      boundDesk s cid = some dc →
      (step now s cid (ClientMsg.scanParticipant uniqueId)).2 =
        [(dc, ServerMsg.scanAcknowledged uniqueId),
         (cid, ServerMsg.scanAcknowledged uniqueId)]) ∧
    ((s.sdata cid).role = some Role.scanner → boundDesk s cid = none →
      (step now s cid (ClientMsg.scanParticipant uniqueId)).2 =
        [(cid, ServerMsg.error "Desk not connected")]) ∧
    ((s.sdata cid).role ≠ some Role.scanner →
      (step now s cid (ClientMsg.scanParticipant uniqueId)).2 =
        [(cid, ServerMsg.error "Only scanner can send scans")]) ∧
    ((∃ t u, (t, ServerMsg.scanAcknowledged u) ∈
        (step now s cid (ClientMsg.scanParticipant uniqueId)).2) ↔
      ((s.sdata cid).role = some Role.scanner ∧
        ∃ dc, boundDesk s cid = some dc)) := by
  rw [step_scan_eq]
  by_cases hrole : (s.sdata cid).role = some Role.scanner
  · cases hbd : boundDesk s cid with
    | none =>
        rw [if_pos hrole]
        refine ⟨rfl, ?_, ?_, ?_, ?_⟩
        · intro dc _ hdc
          cases hdc
        · intro _ _
          rfl
        · intro hno
          exact absurd hrole hno
        · constructor
          · rintro ⟨t, u, hmem⟩
            simp at hmem
          · rintro ⟨_, dc, hdc⟩
            cases hdc
    | some dc =>
        rw [if_pos hrole]
        refine ⟨rfl, ?_, ?_, ?_, ?_⟩
        · intro dc2 _ hdc
          cases hdc
          rfl
        · intro _ hdc
          cases hdc
        · intro hno
          exact absurd hrole hno
        · constructor
          · intro _
            exact ⟨hrole, dc, rfl⟩
          · rintro ⟨_, dc2, _⟩
            exact ⟨dc, uniqueId, by simp⟩
  · rw [if_neg hrole]
    refine ⟨rfl, ?_, ?_, ?_, ?_⟩
    · intro dc hsc _
      exact absurd hsc hrole
    · intro hsc _
      exact absurd hsc hrole
    · intro _
      rfl
    · constructor
      · rintro ⟨t, u, hmem⟩
        simp at hmem
      · rintro ⟨hsc, _⟩
        exact absurd hsc hrole

/-- Witness for C4: in the concrete paired state, a scan from scanner 1
is acknowledged to desk 0 and echoed to scanner 1, and the state is
unchanged. -/
theorem scan_participant_relay_witness :
    (step 4 exState 1 (ClientMsg.scanParticipant "INF0042")).1 = exState ∧
    (step 4 exState 1 (ClientMsg.scanParticipant "INF0042")).2 =
      [(0, ServerMsg.scanAcknowledged "INF0042"),
       (1, ServerMsg.scanAcknowledged "INF0042")] := by
  have h := scan_participant_relay exState 4 1 "INF0042"
  exact ⟨h.1, h.2.1 0 (by decide) (by decide)⟩

/-! ## C8: resume-scanning relay behavior -/

/-- C8: `resume-scanning` is accepted only from a connection tagged
role=desk: with any other role tag the sender gets an `error`; from a
desk with no bound scanner (no room or an empty scanner slot) the desk
receives an `error`; from a desk whose room has a bound scanner the event
is forwarded to that scanner as the only emission — no error — and the
relay state never changes. -/
theorem resume_scanning_relay (s : RelayState) (now cid : Nat) :
    (step now s cid ClientMsg.resumeScanning).1 = s ∧
    ((s.sdata cid).role ≠ some Role.desk →
      (step now s cid ClientMsg.resumeScanning).2 =
        [(cid, ServerMsg.error "Only desk can resume scanning")]) ∧
    ((s.sdata cid).role = some Role.desk → boundScanner s cid = none →
      (step now s cid ClientMsg.resumeScanning).2 =
        [(cid, ServerMsg.error "Scanner not connected")]) ∧
    (∀ sc, (s.sdata cid).role = some Role.desk →
      boundScanner s cid = some sc →
      (step now s cid ClientMsg.resumeScanning).2 =
        [(sc, ServerMsg.resumeScanning)]) ∧
    (((cid2 : Nat) → (msg : String) →
        (cid2, ServerMsg.error msg) ∉
          (step now s cid ClientMsg.resumeScanning).2) ↔
      ((s.sdata cid).role = some Role.desk ∧
        ∃ sc, boundScanner s cid = some sc)) := by
  rw [step_resume_eq]
  by_cases hrole : (s.sdata cid).role = some Role.desk
  · cases hbs : boundScanner s cid with
    | none =>
        rw [if_pos hrole]
        refine ⟨rfl, ?_, ?_, ?_, ?_⟩
        · intro hno
          exact absurd hrole hno
        · intro _ _
          rfl
        · intro sc _ hsc
          cases hsc
        · constructor
          · intro hmem
            exact absurd (by simp : ((cid, ServerMsg.error
              "Scanner not connected") ∈ [(cid, ServerMsg.error
              "Scanner not connected")])) (hmem cid "Scanner not connected")
          · rintro ⟨_, sc, hsc⟩
            cases hsc
    | some sc =>
        rw [if_pos hrole]
        refine ⟨rfl, ?_, ?_, ?_, ?_⟩
        · intro hno
          exact absurd hrole hno
        · intro _ hsc
          cases hsc
        · intro sc2 _ hsc
          cases hsc
          rfl
        · constructor
          · intro _
            exact ⟨hrole, sc, rfl⟩
          · intro _ cid2 msg hmem
            simp at hmem
  · rw [if_neg hrole]
    refine ⟨rfl, ?_, ?_, ?_, ?_⟩
    · intro _
      rfl
    · intro hd _
      exact absurd hd hrole
    · intro sc hd _
      exact absurd hd hrole
    · constructor
      · intro hmem
        exact absurd (by simp : ((cid, ServerMsg.error
          "Only desk can resume scanning") ∈ [(cid, ServerMsg.error
          "Only desk can resume scanning")]))
          (hmem cid "Only desk can resume scanning")
      · rintro ⟨hd, _⟩
        exact absurd hd hrole

/-- Witness for C8: in the concrete paired state, desk 0's
`resume-scanning` is forwarded to scanner 1 with no error and no state
change. -/
theorem resume_scanning_relay_witness :
    (step 5 exState 0 ClientMsg.resumeScanning).1 = exState ∧
    (step 5 exState 0 ClientMsg.resumeScanning).2 =
      [(1, ServerMsg.resumeScanning)] := by
  have h := resume_scanning_relay exState 5 0
  exact ⟨h.1, h.2.2.2.1 1 (by decide) (by decide)⟩

/-! ## C6: disconnect cleanup -/

/-- C6: when a connection tagged for `deskId` closes while holding the
desk slot of its room, that slot is cleared and a still-bound scanner is
the sole recipient of `desk-disconnected`; the room is deleted exactly
when both slots are then empty, and while a scanner remains bound the
room is kept with the scanner slot intact.  Symmetrically for a closing
scanner.  (`deskId ≠ ""` because the handler's `if (deskId)` guard treats
the empty string as falsy; ids are 32-hex strings, never empty.) -/
theorem disconnect_cleanup (s : RelayState) (now cid : Nat)
    (deskId : String) (room : DeskRoom)
    (hnd : (s.rooms.map Prod.fst).Nodup)
    (hne : deskId ≠ "")
    (hr : mapFind s.rooms deskId = some room) :
    ((s.sdata cid).deskId = some deskId →
     (s.sdata cid).role = some Role.desk →
     room.deskClient = some cid →
      (∀ sc, room.scannerClient = some sc →
        mapFind (step now s cid ClientMsg.disconnect).1.rooms deskId =
          some { deskClient := none, scannerClient := some sc } ∧
        (step now s cid ClientMsg.disconnect).2 =
          [(sc, ServerMsg.deskDisconnected)]) ∧
      (room.scannerClient = none →
        mapFind (step now s cid ClientMsg.disconnect).1.rooms deskId = none ∧
        (step now s cid ClientMsg.disconnect).2 = [])) ∧
    ((s.sdata cid).deskId = some deskId →
     (s.sdata cid).role = some Role.scanner →
     room.scannerClient = some cid →
      (∀ dc, room.deskClient = some dc →
        mapFind (step now s cid ClientMsg.disconnect).1.rooms deskId =
          some { deskClient := some dc, scannerClient := none } ∧
        (step now s cid ClientMsg.disconnect).2 =
          [(dc, ServerMsg.scannerDisconnected)]) ∧
      (room.deskClient = none →
        mapFind (step now s cid ClientMsg.disconnect).1.rooms deskId = none ∧
        (step now s cid ClientMsg.disconnect).2 = [])) := by
  constructor
  · intro hid hrole _
    constructor
    · intro sc hsc
      rw [step_disc_desk_paired hid hne hrole hr hsc]
      refine ⟨(mapFind_mapSet_self s.rooms deskId _).trans ?_, rfl⟩
      rw [← hsc]
    · intro hsc
      rw [step_disc_desk_alone hid hne hrole hr hsc]
      exact ⟨mapFind_mapDel_self hnd, rfl⟩
  · intro hid hrole _
    constructor
    · intro dc hd
      rw [step_disc_scanner_paired hid hne hrole hr hd]
      refine ⟨(mapFind_mapSet_self s.rooms deskId _).trans ?_, rfl⟩
      rw [← hd]
    · intro hd
      rw [step_disc_scanner_alone hid hne hrole hr hd]
      exact ⟨mapFind_mapDel_self hnd, rfl⟩

/-- Witness for C6: in the concrete paired state, desk 0's disconnect
clears the desk slot, keeps the room with scanner 1 intact, and notifies
only scanner 1 with `desk-disconnected`. -/
theorem disconnect_cleanup_witness :
    mapFind (step 6 exState 0 ClientMsg.disconnect).1.rooms "d" =
      some { deskClient := none, scannerClient := some 1 } ∧
    (step 6 exState 0 ClientMsg.disconnect).2 =
      [(1, ServerMsg.deskDisconnected)] := by
  have h := (disconnect_cleanup exState 6 0 "d"
      { deskClient := some 0, scannerClient := some 1 }
      (by decide) (by decide) (by decide)).1
      (by decide) (by decide) (by decide)
  exact h.1 1 rfl

/-! ## C7: join-scanner rejection -/

/-- C7 counterexample: a `join-scanner` with the correct signature for a
session that has already expired is rejected with an error and leaves the
room map unchanged, but it does mutate the session registry — the
validation call lazily evicts the expired session — so "leaves the
session registry unchanged" is false at this input. -/
theorem join_scanner_registry_cex :
    (step 100 expiredSessState 7 (ClientMsg.joinScanner "d" "sig")).2 =
      [(7, ServerMsg.error "Invalid or expired desk session")] ∧
    (step 100 expiredSessState 7 (ClientMsg.joinScanner "d" "sig")).1.rooms
      = [] ∧
    (step 100 expiredSessState 7 (ClientMsg.joinScanner "d" "sig")).1.sessions
      = [] ∧
    expiredSessState.sessions ≠ [] := by
  refine ⟨rfl, rfl, rfl, by decide⟩

/-- C7 (amended): `join-scanner` replies `error` and leaves the room map
unchanged whenever validation fails or no room exists for the id, and a
scanner join never creates a room; on such failures the session registry
is also unchanged except that a validation failure lazily evicts a
session found past its expiry. -/
theorem join_scanner_reject (s : RelayState) (now cid : Nat)
    (deskId signature : String) :
    ((validateDeskSession s.sessions deskId signature now).1 = false →
      (step now s cid (ClientMsg.joinScanner deskId signature)).1.rooms =
        s.rooms ∧
      (step now s cid (ClientMsg.joinScanner deskId signature)).2 =
        [(cid, ServerMsg.error "Invalid or expired desk session")] ∧
      ((∀ ds, mapFind s.sessions deskId = some ds → now ≤ ds.expiresAt) →
        (step now s cid (ClientMsg.joinScanner deskId signature)).1.sessions =
          s.sessions) ∧
      (∀ ds, mapFind s.sessions deskId = some ds → ds.expiresAt < now →
        (step now s cid (ClientMsg.joinScanner deskId signature)).1.sessions =
          mapDel s.sessions deskId)) ∧
    ((validateDeskSession s.sessions deskId signature now).1 = true →
      mapFind s.rooms deskId = none →
      (step now s cid (ClientMsg.joinScanner deskId signature)).1 = s ∧
      (step now s cid (ClientMsg.joinScanner deskId signature)).2 =
        [(cid, ServerMsg.error "Desk session not found")]) ∧
    (∀ k, mapFind s.rooms k = none →
      mapFind (step now s cid
        (ClientMsg.joinScanner deskId signature)).1.rooms k = none) := by
  refine ⟨?_, ?_, ?_⟩
  · intro hv
    rw [step_joinScanner_invalid hv]
    refine ⟨rfl, rfl, ?_, ?_⟩
    · intro hlive
      exact validate_keep hlive
    · intro ds hf he
      exact validate_evict hf he
  · intro hv hr
    rw [step_joinScanner_valid_none hv hr]
    exact ⟨rfl, rfl⟩
  · intro k hk
    cases hv : (validateDeskSession s.sessions deskId signature now).1 with
    | false =>
        rw [step_joinScanner_invalid hv]
        exact hk
    | true =>
        cases hr : mapFind s.rooms deskId with
        | none =>
            rw [step_joinScanner_valid_none hv hr]
            exact hk
        | some old =>
            rw [step_joinScanner_valid_some hv hr]
            have hkd : k ≠ deskId := by
              intro hcon
              rw [hcon, hr] at hk
              cases hk
            exact (mapFind_mapSet_ne s.rooms deskId k _ hkd).trans hk

/-- Witness for C7: a `join-scanner` with a wrong signature for a live
session is rejected and changes nothing. -/
theorem join_scanner_reject_witness :
    (step 3 exState 7 (ClientMsg.joinScanner "d" "wrong")).1.rooms =
      exState.rooms ∧
    (step 3 exState 7 (ClientMsg.joinScanner "d" "wrong")).2 =
      [(7, ServerMsg.error "Invalid or expired desk session")] ∧
    (step 3 exState 7 (ClientMsg.joinScanner "d" "wrong")).1.sessions =
      exState.sessions := by
  have h := (join_scanner_reject exState 3 7 "d" "wrong").1 (by decide)
  refine ⟨h.1, h.2.1, h.2.2.1 ?_⟩
  intro ds hf
  have hval : mapFind exState.sessions "d" =
      some { deskId := "d", signature := "sig", createdAt := 0,
             expiresAt := 0 + SESSION_EXPIRY } := by decide
  have hds : ds = { deskId := "d", signature := "sig", createdAt := 0,
                    expiresAt := 0 + SESSION_EXPIRY } :=
    Option.some.inj (hf.symm.trans hval)
  rw [hds]
  decide

/-! ## C5: there is no clear-scan event -/

/-- C5 counterexample: `"clear-scan"` is not among the event names the
relay registers a handler for, so even in a fully paired room a
`clear-scan` event is dropped with no emission to the other side — the
relay does not forward it; and the scanner client registers no
`clear-scan` listener, so it cannot restart its decode loop on one. -/
theorem clear_scan_cex :
    serverHandledEvents.contains "clear-scan" = false ∧
    step 7 exState 1 (ClientMsg.other "clear-scan") = (exState, []) ∧
    scannerListeners.contains "clear-scan" = false := by
  exact ⟨by decide, rfl, by decide⟩

/-- C5 (amended): no `clear-scan` event exists in the code.  The relay
has no handler for that name and an event without a handler is a no-op
(state unchanged, nothing emitted); the scanner client listens for no
such event and restarts its decode loop on `resume-scanning`; the desk's
clear action is local — it resets the outward-facing field — and emits
`resume-scanning` to the relay instead. -/
theorem clear_scan_amended :
    serverHandledEvents.contains "clear-scan" = false ∧
    (∀ (now : Nat) (s : RelayState) (cid : Nat),
      step now s cid (ClientMsg.other "clear-scan") = (s, [])) ∧
    scannerListeners.contains "clear-scan" = false ∧
    deskListeners.contains "clear-scan" = false ∧
    (∀ ui : ScannerUI,
      (scannerHandle ui ServerMsg.resumeScanning).scanning = true ∧
      (scannerHandle ui ServerMsg.resumeScanning).paused = false) ∧
    (∀ ui : DeskUI, (clearScan ui true true).1.uniqueIdValue = "" ∧
      (clearScan ui true true).2 = ["resume-scanning"]) := by
  exact ⟨by decide, fun now s cid => rfl, by decide, by decide,
         fun ui => ⟨rfl, rfl⟩, fun ui => ⟨rfl, rfl⟩⟩

/-! ## C9: scanner decode and transmission -/

/-- C9 counterexample: a decoded text that parses as JSON but is not the
PARTICIPANT shape (here `type` is `"OTHER"`) produces no
`scan-participant` emission at all — neither the parsed `uniqueId` nor
the raw text fallback is transmitted; and when `JSON.parse` throws, the
raw text is emitted verbatim with no normalization to a fixed-prefix
alphanumeric form (here it keeps a space and lowercase). -/
theorem decode_normalize_cex :
    decodeCallback false true "otherpayload"
        (ParseOutcome.ok (some "OTHER") (some "INF0042")) = none ∧
    (none : Option String) ≠ some "INF0042" ∧
    (none : Option String) ≠ some "otherpayload" ∧
    decodeCallback false true "not an id" ParseOutcome.fail =
      some "not an id" := by
  refine ⟨rfl, by decide, by decide, rfl⟩

/-- C9 (amended): when the scanner is not paused and the socket is
connected, a decode emits `scan-participant` with exactly the parsed
`uniqueId` (verbatim, no normalization) when the text parses as JSON with
`type === 'PARTICIPANT'` and a non-empty `uniqueId`; with exactly the raw
decoded text (verbatim) when `JSON.parse` throws; and nothing in every
other case (JSON of any other shape, paused scanner, or disconnected
socket). -/
theorem decode_emit_characterization (paused connected : Bool)
    (decodedText : String) (parsed : ParseOutcome) (x : String) :
    decodeCallback paused connected decodedText parsed = some x ↔
      (paused = false ∧ connected = true ∧
        ((∃ u, parsed = ParseOutcome.ok (some "PARTICIPANT") (some u) ∧
            u ≠ "" ∧ x = u) ∨
         (parsed = ParseOutcome.fail ∧ x = decodedText))) := by
  cases paused with
  | true => simp [decodeCallback]
  | false =>
      cases parsed with
      | fail =>
          cases connected <;> simp [decodeCallback, eq_comm]
      | ok ty uid =>
          by_cases hty : ty = some "PARTICIPANT"
          · subst hty
            cases uid with
            | none => cases connected <;> simp [decodeCallback]
            | some u =>
                by_cases hu : u = ""
                · subst hu
                  cases connected <;> simp [decodeCallback]
                · cases connected <;>
                    simp [decodeCallback, hu, eq_comm]
          · cases connected <;> simp [decodeCallback, hty]

/-- Witness for C9: a PARTICIPANT payload is transmitted with its
`uniqueId` unchanged. -/
theorem decode_emit_characterization_witness :
    decodeCallback false true "rawtext"
      (ParseOutcome.ok (some "PARTICIPANT") (some "INF0042")) =
      some "INF0042" := by
  exact (decode_emit_characterization false true "rawtext"
    (ParseOutcome.ok (some "PARTICIPANT") (some "INF0042")) "INF0042").mpr
    ⟨rfl, rfl, Or.inl ⟨"INF0042", rfl, by decide, rfl⟩⟩

/-! ## C10: the desk strips the first INF occurrence -/

theorem removeFirstOcc_length {pat : List Char} (hp : pat ≠ [])
    (s : List Char) (h : hasOcc pat s = true) :
    (removeFirstOcc pat s).length + pat.length = s.length := by
  induction s with
  | nil =>
      cases pat with
      | nil => exact absurd rfl hp
      | cons a as => simp [hasOcc] at h
  | cons c rest ih =>
      by_cases hpre : pat.isPrefixOf (c :: rest)
      · have hle : pat.length ≤ (c :: rest).length :=
          (List.isPrefixOf_iff_prefix.mp hpre).length_le
        simp only [removeFirstOcc, if_pos hpre, List.length_drop]
        simp only [List.length_cons] at hle ⊢
        omega
      · have h2 : hasOcc pat rest = true := by
          simp only [hasOcc, Bool.or_eq_true] at h
          rcases h with h | h
          · exact absurd h hpre
          · exact h
        simp only [removeFirstOcc, if_neg hpre, List.length_cons]
        have := ih h2
        omega

/-- C10: the desk's `scan-acknowledged` listener writes
`uniqueId.replace('INF', '')` — the identifier with the first occurrence
of the substring `INF` removed — into the outward-facing field, e.g.
`INF0042` becomes `0042`; whenever the identifier contains `INF`, the
stored value therefore differs from the transmitted identifier. -/
theorem desk_ack_strip_inf (ui : DeskUI) (uid : String) :
    (deskHandle ui (ServerMsg.scanAcknowledged uid)).uniqueIdValue =
      stripInfTag uid ∧
    stripInfTag "INF0042" = "0042" ∧
    (hasOcc "INF".data uid.data = true → stripInfTag uid ≠ uid) := by
  refine ⟨rfl, by decide, ?_⟩
  intro h hcon
  have hlen := removeFirstOcc_length (by decide) uid.data h
  have hdata : (stripInfTag uid).data = uid.data := by rw [hcon]
  have hd2 : (removeFirstOcc "INF".data uid.data).length = uid.data.length :=
    congrArg List.length hdata
  have h3 : ("INF".data).length = 3 := by decide
  omega

/-- Witness for C10: `scan-acknowledged("INF0042")` stores `0042`, which
differs from the transmitted id. -/
theorem desk_ack_strip_inf_witness :
    (deskHandle { uniqueIdValue := "", scannerConnected := true }
        (ServerMsg.scanAcknowledged "INF0042")).uniqueIdValue = "0042" ∧
    stripInfTag "INF0042" ≠ "INF0042" := by
  have h := desk_ack_strip_inf
    { uniqueIdValue := "", scannerConnected := true } "INF0042"
  exact ⟨h.1.trans h.2.1, h.2.2 (by decide)⟩
